import Mathlib

/-!
Shallow embedding of the SagemakerSnowflakeConnectivity notebook
(src/SparkConnector/Spark-Local-Snowflake.ipynb) and proofs about it.

The notebook has four stages:
1. a bash cell that provisions the two Snowflake driver jars from a Maven
   repository (cell-2);
2. a SparkContext construction (cell-5) with a commented-out sc.stop() (cell-4);
3. a credential fetch from the SSM parameter store (cell-7), building a dict
   comprehension over the response;
4. a Spark read request with an sfOptions dict and a single query string
   (cell-9).

Text processing (grep/awk field splitting, shell glob prefix matching) is
modelled on List Char so that all definitions kernel-evaluate.
-/

/-! ### Text utilities (models of grep / awk / shell glob over strings) -/

/-- Split a character list at every occurrence of the separator character,
the way awk with a one-character field separator splits a line into fields.
Mirrors the behavior of splitting a string on a single-character separator:
splitChar c of an empty list is one empty field. -/
def splitChar (c : Char) : List Char → List (List Char)
  | [] => [[]]
  | a :: rest =>
    match splitChar c rest with
    | [] => [[]]
    | h :: t => if a = c then [] :: h :: t else (a :: h) :: t

/-- Substring containment test: whether pat occurs as a contiguous run inside
the second list. Models the fixed-string match done by the grep in cell-2. -/
def containsChars (pat : List Char) : List Char → Bool
  | [] => pat.isEmpty
  | a :: rest => pat.isPrefixOf (a :: rest) || containsChars pat rest

/-- Field i of a line under a one-character separator, 1-indexed like awk.
A missing field is the empty string, as in awk. -/
def awkField (sep : Char) (i : Nat) (line : List Char) : List Char :=
  (splitChar sep line).getD (i - 1) []

/-- Boolean string-prefix test through the underlying character lists; models
the shell glob PRODUCT* used by rm in cell-2. -/
def strPrefixOf (p f : String) : Bool := p.data.isPrefixOf f.data

/-- Boolean string-suffix test through the underlying character lists. -/
def strSuffixOf (p f : String) : Bool := p.data.isSuffixOf f.data

/-! ### Driver Provisioner (bash cell, cell-2)

The cell iterates over PRODUCTS; for each product it fetches
maven-metadata.xml, extracts VERSION with
grep latest | awk -F">" (print dollar-2) | awk -F"<" (print dollar-1),
sets DRIVER=PRODUCT-VERSION.jar, and if DRIVER is not a local file it runs
rm PRODUCT* and wget of the versioned driver URL. The metadata file itself is
removed at the end of every iteration, so it is not part of the modelled
directory state; the state tracks the jar files. A metadata fetch outcome is
an Option (List String): none when the wget failed (no file, so grep reads
nothing), some lines when it succeeded. Whether the driver wget produces the
file is the downloadOk flag; the wget is attempted either way and is recorded
as a network operation. -/

/-- The fixed product list of cell-2: PRODUCTS='snowflake-jdbc spark-snowflake_2.11'. -/
def PRODUCTS : List String := ["snowflake-jdbc", "spark-snowflake_2.11"]

/-- VERSION extraction pipeline of cell-2: grep latest maven-metadata.xml,
take awk field 2 splitting on the greater-than sign, then awk field 1
splitting on the less-than sign; the command substitution joins the output
lines. When the metadata fetch failed the file is absent, grep produces no
output, and VERSION is the empty string; likewise when no line mentions
latest. -/
def extractVersion (fetched : Option (List String)) : String :=
  match fetched with
  | none => ""
  | some ls =>
      String.intercalate "\n"
        ((ls.filter (fun l => containsChars "latest".data l.data)).map
          (fun l => String.mk (awkField '<' 1 (awkField '>' 2 l.data))))

/-- DRIVER=PRODUCT-VERSION.jar from cell-2. -/
def driverName (product version : String) : String :=
  product ++ "-" ++ version ++ ".jar"

/-- A network operation performed by cell-2: the unconditional wget of
maven-metadata.xml, or the conditional wget of a versioned driver jar. -/
inductive NetOp where
  | fetchMeta (product : String)
  | fetchJar (product version driver : String)
deriving DecidableEq, Repr

/-- Whether a network operation is a driver-jar download (the conditional
wget), as opposed to the metadata fetch. -/
def isJarFetch : NetOp → Bool
  | NetOp.fetchJar _ _ _ => true
  | NetOp.fetchMeta _ => false

/-- Result of one loop iteration of cell-2: the jar files present in the
driver directory afterwards, and the network operations attempted. -/
structure ProvisionStep where
  files : List String
  ops : List NetOp
deriving DecidableEq, Repr

/-- One iteration of the for-loop in cell-2 for one product: fetch metadata,
compute VERSION and DRIVER; if DRIVER is not present, remove every file
matching the glob PRODUCT* and attempt the driver wget (which adds DRIVER to
the directory exactly when it succeeds). -/
def provisionProduct (product : String) (metadata : Option (List String))
    (downloadOk : Bool) (files : List String) : ProvisionStep :=
  let version := extractVersion metadata
  let driver := driverName product version
  if driver ∈ files then
    { files := files, ops := [NetOp.fetchMeta product] }
  else
    { files := (if downloadOk then [driver] else []) ++
        files.filter (fun f => !(strPrefixOf product f)),
      ops := [NetOp.fetchMeta product,
              NetOp.fetchJar product version driver] }

/-- The whole cell-2 loop: run the per-product iteration over PRODUCTS in
order, threading the directory state and collecting the network operations. -/
def provisionAll (metadata : String → Option (List String))
    (downloadOk : String → Bool) (files : List String) : ProvisionStep :=
  PRODUCTS.foldl
    (fun acc p =>
      let r := provisionProduct p (metadata p) (downloadOk p) acc.files
      { files := r.files, ops := acc.ops ++ r.ops })
    { files := files, ops := [] }

/-- The local artifacts belonging to one product: the files matched by the
glob PRODUCT*. -/
def productFiles (product : String) (files : List String) : List String :=
  files.filter (fun f => strPrefixOf product f)

/-! ### Credential Resolver (cell-7) -/

/-- The fixed list of nine requested parameter names from cell-7. -/
def params : List String :=
  ["/SNOWFLAKE/URL", "/SNOWFLAKE/ACCOUNT_ID",
   "/SNOWFLAKE/USER_ID", "/SNOWFLAKE/PASSWORD",
   "/SNOWFLAKE/DATABASE", "/SNOWFLAKE/SCHEMA",
   "/SNOWFLAKE/WAREHOUSE", "/SNOWFLAKE/BUCKET",
   "/SNOWFLAKE/PREFIX"]

/-- The service region fixed in cell-7. -/
def region : String := "us-east-1"

/-- One entry of the Parameters array of an SSM get_parameters response. -/
structure Parameter where
  Name : String
  Value : String
deriving DecidableEq, Repr

/-- Body of get_credentials in cell-7: the response of the batch fetch is
external input; the function builds the dict comprehension
with each Name of the response mapped to its Value. The requested names are
sent in the request but the resulting dict is driven purely by the response. -/
def get_credentials (response : List Parameter) : List (String × String) :=
  response.map (fun k => (k.Name, k.Value))

/-- Python dict indexing over the association list built by the
comprehension: the last binding of a key wins, and a missing key gives none
(a KeyError in Python) rather than any default value. -/
def dictGet (d : List (String × String)) (key : String) : Option String :=
  d.reverse.lookup key

/-! ### Query Executor configuration (cell-9) -/

/-- The seven parameter names that cell-9 actually reads out of param_values
when building sfOptions. -/
def usedParams : List String :=
  ["/SNOWFLAKE/URL", "/SNOWFLAKE/ACCOUNT_ID",
   "/SNOWFLAKE/USER_ID", "/SNOWFLAKE/PASSWORD",
   "/SNOWFLAKE/DATABASE", "/SNOWFLAKE/SCHEMA",
   "/SNOWFLAKE/WAREHOUSE"]

/-- The sfOptions dict literal of cell-9, parameterized by the lookup into
param_values. Python evaluates the seven indexing expressions and raises a
KeyError at the first absent key; the dict is produced only when all seven
lookups succeed, which the Option models. -/
def sfOptions (pv : String → Option String) : Option (List (String × String)) :=
  match pv "/SNOWFLAKE/URL", pv "/SNOWFLAKE/ACCOUNT_ID", pv "/SNOWFLAKE/USER_ID",
        pv "/SNOWFLAKE/PASSWORD", pv "/SNOWFLAKE/DATABASE", pv "/SNOWFLAKE/SCHEMA",
        pv "/SNOWFLAKE/WAREHOUSE" with
  | some url, some account, some user, some password, some database,
    some schema, some warehouse =>
      some [("sfURL", url), ("sfAccount", account), ("sfUser", user),
            ("sfPassword", password), ("sfDatabase", database),
            ("sfSchema", schema), ("sfWarehouse", warehouse)]
  | _, _, _, _, _, _, _ => none

/-- The external format identifier of cell-9. -/
def SNOWFLAKE_SOURCE_NAME : String := "net.snowflake.spark.snowflake"

/-- The query string of cell-9, exactly as concatenated in the source. -/
def query : String :=
  "select (V:main.temp_max - 273.15) * 1.8000 + 32.00 as temp_max_far, " ++
  "       (V:main.temp_min - 273.15) * 1.8000 + 32.00 as temp_min_far, " ++
  "       cast(V:time as timestamp) time, " ++
  "       V:city.coord.lat lat, " ++
  "       V:city.coord.lon lon " ++
  "from snowflake_sample_data.weather.weather_14_total limit 5000000"

/-- The options carried by the read request of cell-9: the sfOptions entries
followed by the single additional query option added with .option. Fails
exactly when building sfOptions fails. -/
def readRequestOpts (pv : String → Option String) :
    Option (List (String × String)) :=
  (sfOptions pv).map (fun opts => opts ++ [("query", query)])

/-- The row limit fixed at the end of the query string of cell-9. -/
def queryLimit : Nat := 5000000

/-- Modelled from the spec: the distributed query engine that executes the
read request is an external collaborator, not part of src; the spec says the
executor materializes up to N rows into the local tabular result, N fixed by
the row limit in the query string. -/
def materialize (α : Type) (rows : List α) : List α := rows.take queryLimit

/-- The Kelvin-to-Fahrenheit conversion applied by the query string of cell-9
to the temp_max and temp_min fields, over the exact rationals. -/
def temp_far (v : ℚ) : ℚ := (v - 273.15) * 1.8000 + 32.00

/-! ### Session Configurator (cell-4 and cell-5) -/

/-- Modelled from the spec: the session handle discipline. SparkContext
itself is pyspark library code, not under src; per the spec a session is a
single live resource per process, so the process session state holds at most
one handle, here carrying the configured application name. -/
abbrev SessionState := Option String

/-- The application name set on the SparkConf in cell-5. -/
def appName : String := "local-spark-test"

/-- Modelled from the spec: creating a session (the SparkContext construction
of cell-5). A second initialization attempt while a session is active must
fail; with no active session it produces the single live handle. -/
def initSession (name : String) : SessionState → Except String SessionState
  | some _ => Except.error "a session is already active: release it before creating a new one"
  | none => Except.ok (some name)

/-- Modelled from the spec: the explicit release of the session handle (the
commented-out sc.stop() of cell-4). -/
def stopSession : SessionState → SessionState := fun _ => none

/-- Number of live session handles in a session state. -/
def liveHandles : SessionState → Nat
  | none => 0
  | some _ => 1

/-- The one session initialization the notebook performs, from a fresh
process state. -/
def notebookSession : Except String SessionState := initSession appName none

/-! ### Concrete sample inputs used by witnesses and counterexamples -/

/-- A well-formed metadata file body whose latest version is 3.12.17. -/
def sampleMeta : List String :=
  ["<metadata>", "  <latest>3.12.17</latest>", "</metadata>"]

/-- Metadata outcomes in which both products resolve their current versions. -/
def metaLatest : String → Option (List String) := fun p =>
  if p = "snowflake-jdbc" then some ["  <latest>3.12.17</latest>"]
  else if p = "spark-snowflake_2.11" then
    some ["  <latest>2.4.14-spark_2.4</latest>"]
  else none

/-- A directory that already holds the latest jar of each product. -/
def filesLatest : List String :=
  ["snowflake-jdbc-3.12.17.jar", "spark-snowflake_2.11-2.4.14-spark_2.4.jar"]

/-- An SSM response carrying only the seven names that sfOptions reads,
with /SNOWFLAKE/BUCKET and /SNOWFLAKE/PREFIX absent. -/
def respSeven : List Parameter :=
  [⟨"/SNOWFLAKE/URL", "example.snowflakecomputing.com"⟩,
   ⟨"/SNOWFLAKE/ACCOUNT_ID", "acct"⟩,
   ⟨"/SNOWFLAKE/USER_ID", "user"⟩,
   ⟨"/SNOWFLAKE/PASSWORD", "pw"⟩,
   ⟨"/SNOWFLAKE/DATABASE", "db"⟩,
   ⟨"/SNOWFLAKE/SCHEMA", "schema"⟩,
   ⟨"/SNOWFLAKE/WAREHOUSE", "wh"⟩]

/-- A credential lookup that resolves every name to itself. -/
def pvFull : String → Option String := fun k => some k

/-- The sfOptions value produced under pvFull. -/
def optsFull : List (String × String) :=
  [("sfURL", "/SNOWFLAKE/URL"), ("sfAccount", "/SNOWFLAKE/ACCOUNT_ID"),
   ("sfUser", "/SNOWFLAKE/USER_ID"), ("sfPassword", "/SNOWFLAKE/PASSWORD"),
   ("sfDatabase", "/SNOWFLAKE/DATABASE"), ("sfSchema", "/SNOWFLAKE/SCHEMA"),
   ("sfWarehouse", "/SNOWFLAKE/WAREHOUSE")]

/-- A credential lookup resolving every name to itself except that the
storage bucket resolves to one value. -/
def pvBucketA : String → Option String := fun k =>
  if k = "/SNOWFLAKE/BUCKET" then some "bucket-a" else some k

/-- Like pvBucketA but with a different bucket value and no prefix value. -/
def pvBucketB : String → Option String := fun k =>
  if k = "/SNOWFLAKE/BUCKET" then some "bucket-b"
  else if k = "/SNOWFLAKE/PREFIX" then none else some k

/-! ### Helper lemmas -/

theorem strPrefixOf_driverName (p v : String) : strPrefixOf p (driverName p v) = true := by
  rw [strPrefixOf, List.isPrefixOf_iff_prefix, driverName]
  simp only [String.data_append, List.append_assoc]
  exact List.prefix_append _ _

theorem eq_singleton_of_mem {α : Type} {l : List α} {x : α}
    (hx : x ∈ l) (h1 : l.length ≤ 1) : l = [x] := by
  match l with
  | [] => cases hx
  | [a] =>
    simp only [List.mem_singleton] at hx
    subst hx
    rfl
  | a :: b :: t => simp at h1

theorem filter_not_filter {α : Type} (q : α → Bool) (l : List α) :
    (l.filter (fun a => !(q a))).filter q = [] := by
  induction l with
  | nil => rfl
  | cons a t ih =>
    by_cases h : q a = true
    · simp [List.filter_cons, h, ih]
    · simp [List.filter_cons, h, ih]

theorem get_credentials_keys (response : List Parameter) :
    (get_credentials response).map Prod.fst = response.map Parameter.Name := by
  induction response with
  | nil => rfl
  | cons a t ih => simp_all [get_credentials]

theorem sfOptions_isSome (pv : String → Option String) :
    (sfOptions pv).isSome =
      ((pv "/SNOWFLAKE/URL").isSome && (pv "/SNOWFLAKE/ACCOUNT_ID").isSome &&
       (pv "/SNOWFLAKE/USER_ID").isSome && (pv "/SNOWFLAKE/PASSWORD").isSome &&
       (pv "/SNOWFLAKE/DATABASE").isSome && (pv "/SNOWFLAKE/SCHEMA").isSome &&
       (pv "/SNOWFLAKE/WAREHOUSE").isSome) := by
  unfold sfOptions
  cases pv "/SNOWFLAKE/URL" <;> cases pv "/SNOWFLAKE/ACCOUNT_ID" <;>
    cases pv "/SNOWFLAKE/USER_ID" <;> cases pv "/SNOWFLAKE/PASSWORD" <;>
    cases pv "/SNOWFLAKE/DATABASE" <;> cases pv "/SNOWFLAKE/SCHEMA" <;>
    cases pv "/SNOWFLAKE/WAREHOUSE" <;> rfl

theorem sfOptions_eq_none_of_missing (pv : String → Option String) (k : String)
    (hk : k ∈ usedParams) (hmiss : pv k = none) : sfOptions pv = none := by
  have h := sfOptions_isSome pv
  cases ho : sfOptions pv with
  | none => rfl
  | some o =>
    rw [ho] at h
    simp only [usedParams] at hk
    fin_cases hk <;> rw [hmiss] at h <;> simp at h

theorem extractVersion_eq_empty (metadata : Option (List String))
    (h : metadata = none ∨ ∃ ls, metadata = some ls ∧
      ∀ l ∈ ls, containsChars "latest".data l.data = false) :
    extractVersion metadata = "" := by
  rcases h with h | ⟨ls, rfl, h⟩
  · rw [h]; rfl
  · have hnil : ls.filter (fun l => containsChars "latest".data l.data) = [] :=
      List.filter_eq_nil_iff.mpr (by intro a ha; simp [h a ha])
    simp [extractVersion, hnil]
    rfl

/-! ### Claim theorems -/

/-- C1 counterexample: at the concrete response respSeven, which omits the
requested name /SNOWFLAKE/BUCKET, the mapping returned by get_credentials
does not have a key set equal to the requested name set, and the downstream
sfOptions construction succeeds instead of failing, refuting the claim as
stated. -/
theorem credentials_counterexample :
    "/SNOWFLAKE/BUCKET" ∈ params ∧
    "/SNOWFLAKE/BUCKET" ∉ (get_credentials respSeven).map Prod.fst ∧
    dictGet (get_credentials respSeven) "/SNOWFLAKE/BUCKET" = none ∧
    (sfOptions (dictGet (get_credentials respSeven))).isSome = true := by decide

/-- C1 (amended): credential resolution returns a mapping whose key list is
the list of names present in the response, not the requested name list; and
whenever one of the seven names that the sfOptions construction actually
reads is absent from the resolved mapping, that construction fails with a
key-lookup error (none) rather than silently substituting an empty value. -/
theorem credentials_amended (response : List Parameter) (k : String)
    (hk : k ∈ usedParams) (hmiss : dictGet (get_credentials response) k = none) :
    (get_credentials response).map Prod.fst = response.map Parameter.Name ∧
    sfOptions (dictGet (get_credentials response)) = none :=
  ⟨get_credentials_keys response,
   sfOptions_eq_none_of_missing _ k hk hmiss⟩

/-- C1 witness: the amended theorem applied to the response missing
/SNOWFLAKE/URL (the tail of respSeven). -/
theorem credentials_amended_witness :
    (get_credentials respSeven.tail).map Prod.fst = respSeven.tail.map Parameter.Name ∧
    sfOptions (dictGet (get_credentials respSeven.tail)) = none :=
  credentials_amended respSeven.tail "/SNOWFLAKE/URL" (by decide) (by decide)

/-- C2 counterexample: with one stale jar on disk and a failed metadata
fetch, the provisioner does not skip the download step as a no-op: it
resolves the empty version, deletes the existing jar, attempts the
degenerate download, and leaves the directory changed (empty), refuting the
claim that the contents stay unchanged. -/
theorem metadata_failure_counterexample :
    extractVersion none = "" ∧
    (provisionProduct "snowflake-jdbc" none false ["snowflake-jdbc-3.12.17.jar"]).files = [] ∧
    (provisionProduct "snowflake-jdbc" none false ["snowflake-jdbc-3.12.17.jar"]).files ≠
      ["snowflake-jdbc-3.12.17.jar"] ∧
    (provisionProduct "snowflake-jdbc" none false ["snowflake-jdbc-3.12.17.jar"]).ops =
      [NetOp.fetchMeta "snowflake-jdbc",
       NetOp.fetchJar "snowflake-jdbc" "" "snowflake-jdbc-.jar"] := by decide

/-- C2 (amended): when the metadata fetch fails or the metadata has no
latest line, the resolved version is empty; if the degenerate file
PRODUCT-.jar is not present, the download step is not skipped: the
provisioner deletes every local artifact of the product and attempts the
degenerate jar download, so when that download also fails, zero artifacts
remain for the product — the prior contents are not preserved. -/
theorem metadata_failure_amended (p : String) (metadata : Option (List String))
    (files : List String)
    (hbad : metadata = none ∨ ∃ ls, metadata = some ls ∧
      ∀ l ∈ ls, containsChars "latest".data l.data = false)
    (habs : driverName p "" ∉ files) :
    extractVersion metadata = "" ∧
    (provisionProduct p metadata false files).files =
      files.filter (fun f => !(strPrefixOf p f)) ∧
    productFiles p (provisionProduct p metadata false files).files = [] ∧
    (provisionProduct p metadata false files).ops =
      [NetOp.fetchMeta p, NetOp.fetchJar p "" (driverName p "")] := by
  have hv := extractVersion_eq_empty metadata hbad
  have hstep : provisionProduct p metadata false files =
      { files := files.filter (fun f => !(strPrefixOf p f)),
        ops := [NetOp.fetchMeta p, NetOp.fetchJar p "" (driverName p "")] } := by
    simp [provisionProduct, hv, habs]
  refine ⟨hv, by rw [hstep], ?_, by rw [hstep]⟩
  rw [hstep]
  exact filter_not_filter _ _

/-- C2 witness: the amended theorem applied to a failed metadata fetch with
one stale jdbc jar present. -/
theorem metadata_failure_amended_witness :
    extractVersion none = "" ∧
    (provisionProduct "snowflake-jdbc" none false ["snowflake-jdbc-3.12.17.jar"]).files =
      (["snowflake-jdbc-3.12.17.jar"].filter
        (fun f => !(strPrefixOf "snowflake-jdbc" f))) ∧
    productFiles "snowflake-jdbc"
      (provisionProduct "snowflake-jdbc" none false ["snowflake-jdbc-3.12.17.jar"]).files = [] ∧
    (provisionProduct "snowflake-jdbc" none false ["snowflake-jdbc-3.12.17.jar"]).ops =
      [NetOp.fetchMeta "snowflake-jdbc",
       NetOp.fetchJar "snowflake-jdbc" "" (driverName "snowflake-jdbc" "")] :=
  metadata_failure_amended "snowflake-jdbc" none ["snowflake-jdbc-3.12.17.jar"]
    (Or.inl rfl) (by decide)

/-- C3: the temperature conversion applied by the query maps the rational
v to (v - 273.15) * 1.8 + 32 and satisfies the fixed points 273.15 to 32.0
and 373.15 to 212.0; the two conversion expressions occur verbatim in the
query string of cell-9. -/
theorem temp_conversion_fixed_points :
    (∀ v : ℚ, temp_far v = (v - 273.15) * 1.8 + 32) ∧
    temp_far 273.15 = 32.0 ∧ temp_far 373.15 = 212.0 ∧
    containsChars "(V:main.temp_max - 273.15) * 1.8000 + 32.00".data query.data = true ∧
    containsChars "(V:main.temp_min - 273.15) * 1.8000 + 32.00".data query.data = true := by
  refine ⟨fun v => by norm_num [temp_far], by norm_num [temp_far],
    by norm_num [temp_far], by decide, by decide⟩

/-- C4: for a product of the fixed list, when the metadata fetch resolves a
nonempty latest version, the driver download succeeds when attempted, and the
directory starts with at most one artifact for the product (the data-model
invariant), then after the provisioning iteration exactly one artifact for
the product is present and it is the jar of the latest version; in
particular when the latest jar was absent, the stale artifacts are gone and
the fresh jar is the single survivor. -/
theorem provision_exactly_one_latest (p : String) (metadata : Option (List String))
    (v : String) (files : List String)
    (hp : p ∈ PRODUCTS) (hv : extractVersion metadata = v) (hvne : v ≠ "")
    (hone : (productFiles p files).length ≤ 1) :
    productFiles p (provisionProduct p metadata true files).files = [driverName p v] := by
  subst hv
  by_cases hmem : driverName p (extractVersion metadata) ∈ files
  · have hstep : provisionProduct p metadata true files =
        { files := files, ops := [NetOp.fetchMeta p] } := by
      simp [provisionProduct, hmem]
    rw [hstep]
    exact eq_singleton_of_mem
      (List.mem_filter.mpr ⟨hmem, strPrefixOf_driverName p _⟩) hone
  · have hstep : provisionProduct p metadata true files =
        { files := driverName p (extractVersion metadata) ::
            files.filter (fun f => !(strPrefixOf p f)),
          ops := [NetOp.fetchMeta p,
                  NetOp.fetchJar p (extractVersion metadata)
                    (driverName p (extractVersion metadata))] } := by
      simp [provisionProduct, hmem]
    rw [hstep]
    have hnil : (files.filter (fun f => !(strPrefixOf p f))).filter
        (fun f => strPrefixOf p f) = [] := filter_not_filter _ _
    simp [productFiles, List.filter_cons, strPrefixOf_driverName, hnil]

/-- C4 witness: the theorem applied to the jdbc product with a well-formed
metadata file resolving 3.12.17 and one stale 3.0.0 jar on disk. -/
theorem provision_exactly_one_latest_witness :
    productFiles "snowflake-jdbc"
      (provisionProduct "snowflake-jdbc" (some sampleMeta) true
        ["snowflake-jdbc-3.0.0.jar"]).files =
      [driverName "snowflake-jdbc" "3.12.17"] :=
  provision_exactly_one_latest "snowflake-jdbc" (some sampleMeta) "3.12.17"
    ["snowflake-jdbc-3.0.0.jar"] (by decide) (by decide) (by decide) (by decide)

/-- C5 counterexample: in the concrete state where the latest jar of both
products is already on disk, re-running the provisioning loop still performs
two network operations (the two metadata wget fetches), refuting the claim
that zero network downloads are performed. -/
theorem provision_rerun_counterexample :
    driverName "snowflake-jdbc"
      (extractVersion (metaLatest "snowflake-jdbc")) ∈ filesLatest ∧
    driverName "spark-snowflake_2.11"
      (extractVersion (metaLatest "spark-snowflake_2.11")) ∈ filesLatest ∧
    (provisionAll metaLatest (fun _ => false) filesLatest).ops =
      [NetOp.fetchMeta "snowflake-jdbc", NetOp.fetchMeta "spark-snowflake_2.11"] ∧
    (provisionAll metaLatest (fun _ => false) filesLatest).ops ≠ [] := by decide

/-- C5 (amended): when the latest artifact of every product of the fixed
list is already present locally, re-running the provisioning loop leaves the
directory unchanged and performs zero driver-jar downloads — the conditional
wget is skipped for every product — although it still performs one metadata
fetch per product. -/
theorem provision_rerun_no_jar_downloads (metadata : String → Option (List String))
    (downloadOk : String → Bool) (files : List String)
    (h : ∀ p ∈ PRODUCTS, driverName p (extractVersion (metadata p)) ∈ files) :
    (provisionAll metadata downloadOk files).files = files ∧
    (provisionAll metadata downloadOk files).ops.filter isJarFetch = [] := by
  have h1 := h "snowflake-jdbc" (by simp [PRODUCTS])
  have h2 := h "spark-snowflake_2.11" (by simp [PRODUCTS])
  have s1 : provisionProduct "snowflake-jdbc" (metadata "snowflake-jdbc")
      (downloadOk "snowflake-jdbc") files =
      { files := files, ops := [NetOp.fetchMeta "snowflake-jdbc"] } := by
    simp [provisionProduct, h1]
  have s2 : provisionProduct "spark-snowflake_2.11" (metadata "spark-snowflake_2.11")
      (downloadOk "spark-snowflake_2.11") files =
      { files := files, ops := [NetOp.fetchMeta "spark-snowflake_2.11"] } := by
    simp [provisionProduct, h2]
  constructor <;> simp [provisionAll, PRODUCTS, s1, s2, isJarFetch]

/-- C5 witness: the amended theorem applied to the up-to-date directory
filesLatest under the metadata outcomes metaLatest. -/
theorem provision_rerun_no_jar_downloads_witness :
    (provisionAll metaLatest (fun _ => true) filesLatest).files = filesLatest ∧
    (provisionAll metaLatest (fun _ => true) filesLatest).ops.filter isJarFetch = [] :=
  provision_rerun_no_jar_downloads metaLatest (fun _ => true) filesLatest (by decide)

/-- C6: the materialized tabular result of the query never has more rows
than the limit fixed in the query string, 5000000; the query string indeed
ends with that limit clause. -/
theorem query_row_limit :
    (∀ (α : Type) (rows : List α), (materialize α rows).length ≤ queryLimit) ∧
    queryLimit = 5000000 ∧
    strSuffixOf "limit 5000000" query = true := by
  refine ⟨fun α rows => ?_, rfl, by decide⟩
  exact List.length_take_le _ _

/-- C7: the session state holds at most one live handle at every point; the
notebook's single initialization from a fresh state yields the one active
handle; a second initialization attempt while a handle is active fails with
an explicit error; and initialization succeeds again only after the explicit
release. -/
theorem session_singleton :
    (∀ s : SessionState, liveHandles s ≤ 1) ∧
    notebookSession = Except.ok (some appName) ∧
    (∀ name held : String, initSession name (some held) =
      Except.error "a session is already active: release it before creating a new one") ∧
    (∀ (name : String) (s : SessionState),
      initSession name (stopSession s) = Except.ok (some name)) := by
  refine ⟨fun s => ?_, rfl, fun name held => rfl, fun name s => rfl⟩
  cases s <;> simp [liveHandles]

/-- C8: whenever the sfOptions construction succeeds, its key list is
exactly sfURL, sfAccount, sfUser, sfPassword, sfDatabase, sfSchema,
sfWarehouse; every value is the one resolved from the credential mapping for
the corresponding requested name; and the read request carries these options
plus exactly one query option. -/
theorem read_request_options (pv : String → Option String)
    (opts : List (String × String)) (h : sfOptions pv = some opts) :
    opts.map Prod.fst =
      ["sfURL", "sfAccount", "sfUser", "sfPassword", "sfDatabase",
       "sfSchema", "sfWarehouse"] ∧
    dictGet opts "sfURL" = pv "/SNOWFLAKE/URL" ∧
    dictGet opts "sfAccount" = pv "/SNOWFLAKE/ACCOUNT_ID" ∧
    dictGet opts "sfUser" = pv "/SNOWFLAKE/USER_ID" ∧
    dictGet opts "sfPassword" = pv "/SNOWFLAKE/PASSWORD" ∧
    dictGet opts "sfDatabase" = pv "/SNOWFLAKE/DATABASE" ∧
    dictGet opts "sfSchema" = pv "/SNOWFLAKE/SCHEMA" ∧
    dictGet opts "sfWarehouse" = pv "/SNOWFLAKE/WAREHOUSE" ∧
    readRequestOpts pv = some (opts ++ [("query", query)]) ∧
    ((opts ++ [("query", query)]).filter (fun o => o.1 == "query")).length = 1 := by
  unfold sfOptions at h
  split at h
  · rename_i url account user password database schema warehouse hU hA hUs hP hD hS hW
    injection h with h
    subst h
    refine ⟨rfl, ?_, ?_, ?_, ?_, ?_, ?_, ?_, ?_, ?_⟩ <;>
      simp [dictGet, List.lookup, readRequestOpts, sfOptions, hU, hA, hUs, hP, hD, hS, hW]
  · exact absurd h (by simp)

/-- C8 witness: the theorem applied to the credential lookup pvFull that
resolves every name to itself, producing the concrete options optsFull. -/
theorem read_request_options_witness :
    optsFull.map Prod.fst =
      ["sfURL", "sfAccount", "sfUser", "sfPassword", "sfDatabase",
       "sfSchema", "sfWarehouse"] ∧
    dictGet optsFull "sfURL" = pvFull "/SNOWFLAKE/URL" ∧
    dictGet optsFull "sfAccount" = pvFull "/SNOWFLAKE/ACCOUNT_ID" ∧
    dictGet optsFull "sfUser" = pvFull "/SNOWFLAKE/USER_ID" ∧
    dictGet optsFull "sfPassword" = pvFull "/SNOWFLAKE/PASSWORD" ∧
    dictGet optsFull "sfDatabase" = pvFull "/SNOWFLAKE/DATABASE" ∧
    dictGet optsFull "sfSchema" = pvFull "/SNOWFLAKE/SCHEMA" ∧
    dictGet optsFull "sfWarehouse" = pvFull "/SNOWFLAKE/WAREHOUSE" ∧
    readRequestOpts pvFull = some (optsFull ++ [("query", query)]) ∧
    ((optsFull ++ [("query", query)]).filter (fun o => o.1 == "query")).length = 1 :=
  read_request_options pvFull optsFull rfl

/-- C9: the storage bucket and path prefix secrets are requested (they are
in params) but never read downstream: two credential lookups that agree on
every name other than /SNOWFLAKE/BUCKET and /SNOWFLAKE/PREFIX produce the
same sfOptions and the same read request. -/
theorem bucket_prefix_noninterference (pv1 pv2 : String → Option String)
    (h : ∀ k, k ≠ "/SNOWFLAKE/BUCKET" → k ≠ "/SNOWFLAKE/PREFIX" → pv1 k = pv2 k) :
    "/SNOWFLAKE/BUCKET" ∈ params ∧ "/SNOWFLAKE/PREFIX" ∈ params ∧
    sfOptions pv1 = sfOptions pv2 ∧ readRequestOpts pv1 = readRequestOpts pv2 := by
  have e1 := h "/SNOWFLAKE/URL" (by decide) (by decide)
  have e2 := h "/SNOWFLAKE/ACCOUNT_ID" (by decide) (by decide)
  have e3 := h "/SNOWFLAKE/USER_ID" (by decide) (by decide)
  have e4 := h "/SNOWFLAKE/PASSWORD" (by decide) (by decide)
  have e5 := h "/SNOWFLAKE/DATABASE" (by decide) (by decide)
  have e6 := h "/SNOWFLAKE/SCHEMA" (by decide) (by decide)
  have e7 := h "/SNOWFLAKE/WAREHOUSE" (by decide) (by decide)
  have hopts : sfOptions pv1 = sfOptions pv2 := by
    unfold sfOptions
    rw [e1, e2, e3, e4, e5, e6, e7]
  exact ⟨by decide, by decide, hopts, by simp [readRequestOpts, hopts]⟩

/-- C9 witness: the theorem applied to two concrete lookups that differ in
the bucket value and in the presence of the prefix value. -/
theorem bucket_prefix_noninterference_witness :
    "/SNOWFLAKE/BUCKET" ∈ params ∧ "/SNOWFLAKE/PREFIX" ∈ params ∧
    sfOptions pvBucketA = sfOptions pvBucketB ∧
    readRequestOpts pvBucketA = readRequestOpts pvBucketB :=
  bucket_prefix_noninterference pvBucketA pvBucketB (by
    intro k h1 h2
    simp [pvBucketA, pvBucketB, h1, h2])

/-- C10: stale-artifact deletion is not atomic with replacement: for a
product of the fixed list whose latest jar is absent, the iteration removes
every local artifact of the product before the download, so when the
download fails, zero artifacts remain for the product; the operations show
the download was attempted after the deletion. -/
theorem stale_deletion_not_atomic (p : String) (metadata : Option (List String))
    (files : List String) (hp : p ∈ PRODUCTS)
    (habs : driverName p (extractVersion metadata) ∉ files) :
    (provisionProduct p metadata false files).files =
      files.filter (fun f => !(strPrefixOf p f)) ∧
    productFiles p (provisionProduct p metadata false files).files = [] ∧
    (provisionProduct p metadata false files).ops =
      [NetOp.fetchMeta p,
       NetOp.fetchJar p (extractVersion metadata)
         (driverName p (extractVersion metadata))] := by
  have hstep : provisionProduct p metadata false files =
      { files := files.filter (fun f => !(strPrefixOf p f)),
        ops := [NetOp.fetchMeta p,
                NetOp.fetchJar p (extractVersion metadata)
                  (driverName p (extractVersion metadata))] } := by
    simp [provisionProduct, habs]
  refine ⟨by rw [hstep], ?_, by rw [hstep]⟩
  rw [hstep]
  exact filter_not_filter _ _

/-- C10 witness: the theorem applied to the spark connector product with a
resolved latest version 2.4.14-spark_2.4 and one stale 2.4.11 jar on disk. -/
theorem stale_deletion_not_atomic_witness :
    (provisionProduct "spark-snowflake_2.11"
      (some ["  <latest>2.4.14-spark_2.4</latest>"]) false
      ["spark-snowflake_2.11-2.4.11.jar"]).files =
      (["spark-snowflake_2.11-2.4.11.jar"].filter
        (fun f => !(strPrefixOf "spark-snowflake_2.11" f))) ∧
    productFiles "spark-snowflake_2.11"
      (provisionProduct "spark-snowflake_2.11"
        (some ["  <latest>2.4.14-spark_2.4</latest>"]) false
        ["spark-snowflake_2.11-2.4.11.jar"]).files = [] ∧
    (provisionProduct "spark-snowflake_2.11"
      (some ["  <latest>2.4.14-spark_2.4</latest>"]) false
      ["spark-snowflake_2.11-2.4.11.jar"]).ops =
      [NetOp.fetchMeta "spark-snowflake_2.11",
       NetOp.fetchJar "spark-snowflake_2.11"
         (extractVersion (some ["  <latest>2.4.14-spark_2.4</latest>"]))
         (driverName "spark-snowflake_2.11"
           (extractVersion (some ["  <latest>2.4.14-spark_2.4</latest>"])))] :=
  stale_deletion_not_atomic "spark-snowflake_2.11"
    (some ["  <latest>2.4.14-spark_2.4</latest>"])
    ["spark-snowflake_2.11-2.4.11.jar"] (by decide) (by decide)
